import Mathlib

/-!
Shallow embedding of the Water Blob Store backend (src/backend/server.js and
the SQL schema in src/unnamed/part_000), covering the routes the claims are
about: product lookup, checkout-session creation, the Stripe webhook handler
and order lookup.  Database tables are modelled as Lean lists, SQL statements
as list operations, JavaScript thrown errors as `Except`, and the external
payment provider as explicit function parameters.
-/

namespace WaterBlob

/-- A client-supplied cart line (`req.body.items` entries).  The server only
reads `productId` and `quantity`; `clientPrice` and `clientName` model extra
client-claimed fields that the handler never consults. -/
structure CartItem where
  productId : Nat
  quantity : Int
  clientPrice : Option ℚ := none
  clientName : Option String := none
deriving Repr, DecidableEq

/-- A row of the `products` table (schema in src/unnamed/part_000):
`inventory` is nullable (`none` = unlimited stock). -/
structure Product where
  id : Nat
  name : String
  description : String
  price : ℚ
  image_url : Option String
  inventory : Option Int
  active : Bool
deriving Repr, DecidableEq

/-- A row of the `orders` table.  `stripe_session_id` is UNIQUE in the schema;
that constraint is enforced by `insertOrder` below. -/
structure OrderRow where
  id : Nat
  stripe_session_id : String
  customer_email : String
  customer_name : String
  amount : ℚ
  status : String
  shipping_address : String
  items : List CartItem
deriving Repr, DecidableEq

/-- The persistent state: the two tables plus the SERIAL counters. -/
structure DB where
  products : List Product
  orders : List OrderRow
  nextProductId : Nat
  nextOrderId : Nat
deriving Repr, DecidableEq

/-! ## Product routes -/

/-- GET /api/products/:id — `SELECT * FROM products WHERE id = $1 AND active = true`;
`none` models the 404 "Product not found" response. -/
def getSingleProduct (db : DB) (pid : Nat) : Option Product :=
  db.products.find? (fun p => p.id == pid && p.active)

/-! ## Checkout route: POST /api/create-checkout-session -/

/-- A Stripe line item as built by the route (price_data + quantity).
`unit_amount` is `Math.round(product.price * 100)`. -/
structure LineItem where
  name : String
  description : String
  images : List String
  unit_amount : ℤ
  quantity : ℤ
deriving Repr, DecidableEq

/-- `products.find(p => p.id === item.productId)` over the batch-fetched rows.
The SQL fetch `WHERE id = ANY($1)` returns exactly the rows whose id occurs in
the cart, so looking the id up in the full table is equivalent. -/
def findProduct (products : List Product) (pid : Nat) : Option Product :=
  products.find? (fun p => p.id == pid)

/-- The `return { price_data: ..., quantity: ... }` object for one cart line. -/
def mkLineItem (product : Product) (item : CartItem) : LineItem :=
  { name := product.name
    description := product.description
    images := match product.image_url with | some u => [u] | none => []
    unit_amount := round (product.price * 100)
    quantity := item.quantity }

/-- Body of the `items.map(item => ...)` callback: the three `throw new Error`
validations followed by line-item construction. -/
def buildLineItem (products : List Product) (item : CartItem) :
    Except String LineItem :=
  match findProduct products item.productId with
  | none => .error ("Product " ++ toString item.productId ++ " not found")
  | some product =>
    if !product.active then
      .error ("Product " ++ product.name ++ " is no longer available")
    else
      match product.inventory with
      | some inv =>
        if inv < item.quantity then
          .error ("Not enough " ++ product.name ++ " in stock")
        else .ok (mkLineItem product item)
      | none => .ok (mkLineItem product item)

/-- Outcome of POST /api/create-checkout-session.  `badRequest` is the early
`res.status(400)` for an empty cart; `caughtError` is a thrown validation
error reaching the `catch`, which responds `res.status(500)`; in both cases
`stripe.checkout.sessions.create` is never called.  `sessionCreated` records
the line items and the metadata cart snapshot passed to the provider. -/
inductive CreateSessionResult
  | badRequest (msg : String)
  | caughtError (msg : String)
  | sessionCreated (lineItems : List LineItem) (metadata : List CartItem)
deriving Repr, DecidableEq

/-- The checkout orchestrator.  `items.mapM` mirrors `items.map` with `throw`:
it stops at the first failing line. -/
def createSession (db : DB) (items : List CartItem) : CreateSessionResult :=
  if items.isEmpty then .badRequest "No items in cart"
  else
    match items.mapM (buildLineItem db.products) with
    | .error msg => .caughtError msg
    | .ok lineItems => .sessionCreated lineItems items

/-- The HTTP status the route responds with for each outcome. -/
def createSessionStatus : CreateSessionResult → Nat
  | .badRequest _ => 400
  | .caughtError _ => 500
  | .sessionCreated _ _ => 200

/-- Whether the route reached the `stripe.checkout.sessions.create` call. -/
def providerSessionCreated : CreateSessionResult → Bool
  | .sessionCreated _ _ => true
  | _ => false

/-- A cart line the route rejects: unknown product, inactive product, or
non-null inventory below the requested quantity. -/
def lineInvalid (products : List Product) (item : CartItem) : Bool :=
  match findProduct products item.productId with
  | none => true
  | some p =>
    !p.active ||
      (match p.inventory with
       | some inv => inv < item.quantity
       | none => false)

/-! ## Webhook: POST /api/webhook -/

/-- The provider-side checkout session object as the webhook handler and order
lookup read it.  `metadata_items = none` models `session.metadata.items` that
`JSON.parse` cannot decode (the parse throws inside the `try` block). -/
structure StripeSession where
  id : String
  customer_email : String
  customer_name : String
  amount_total : ℤ
  payment_status : String
  shipping_details : String
  metadata_items : Option (List CartItem)
deriving Repr, DecidableEq

/-- A Stripe event as produced by `stripe.webhooks.constructEvent`. -/
structure WebhookEvent where
  type : String
  session : StripeSession
deriving Repr, DecidableEq

/-- A raw webhook HTTP request: raw body plus the stripe-signature header. -/
structure WebhookReq where
  body : String
  sig : String
deriving Repr, DecidableEq

/-- The two responses of the webhook route: the 400 "Webhook Error" sent when
`constructEvent` throws, and the 200 `received: true` acknowledgement. -/
inductive WebhookResponse
  | sigError
  | received
deriving Repr, DecidableEq

/-- Does some order row already carry this stripe session id? -/
def hasOrderForSession (db : DB) (sid : String) : Bool :=
  db.orders.any (fun o => o.stripe_session_id == sid)

/-- The row the webhook handler inserts: status "paid", amount
`session.amount_total / 100`, contact and shipping details from the session
and the deserialized cart snapshot. -/
def insertedRow (db : DB) (s : StripeSession) (items : List CartItem) :
    OrderRow :=
  { id := db.nextOrderId
    stripe_session_id := s.id
    customer_email := s.customer_email
    customer_name := s.customer_name
    amount := (s.amount_total : ℚ) / 100
    status := "paid"
    shipping_address := s.shipping_details
    items := items }

/-- The `INSERT INTO orders ...` of the webhook handler.  The UNIQUE
constraint on `stripe_session_id` makes the insert throw on a duplicate;
otherwise the new row is appended. -/
def insertOrder (db : DB) (s : StripeSession) (items : List CartItem) :
    Except String DB :=
  if hasOrderForSession db s.id then
    .error "duplicate key value violates unique constraint"
  else
    .ok { db with
          orders := db.orders ++ [insertedRow db s items]
          nextOrderId := db.nextOrderId + 1 }

/-- `UPDATE products SET inventory = inventory - $1 WHERE id = $2 AND
inventory IS NOT NULL` for one cart line: every row with the matching id and
a non-null inventory is decremented, with no lower bound. -/
def decrementInventory (products : List Product) (item : CartItem) :
    List Product :=
  products.map (fun p =>
    if p.id == item.productId then
      { p with inventory := p.inventory.map (fun n => n - item.quantity) }
    else p)

/-- The `for (const item of items)` inventory-update loop. -/
def applyDecrements (db : DB) (items : List CartItem) : DB :=
  { db with products := items.foldl decrementInventory db.products }

/-- The event dispatch of the webhook route: only checkout.session.completed
is processed; inside it, the `try` block parses the metadata, inserts the
order and then decrements inventory, and any thrown error (parse failure,
duplicate insert) is caught and logged, leaving the state as it was when the
error was raised. -/
def processEvent (db : DB) (event : WebhookEvent) : DB :=
  if event.type == "checkout.session.completed" then
    match event.session.metadata_items with
    | none => db
    | some items =>
      match insertOrder db event.session items with
      | .error _ => db
      | .ok db1 => applyDecrements db1 items
  else db

/-- The whole webhook route.  `verify` stands for
`stripe.webhooks.constructEvent(body, sig, secret)`: `none` means the
signature check threw (the route answers 400 before touching the database). -/
def handleWebhook (verify : WebhookReq → Option WebhookEvent) (db : DB)
    (req : WebhookReq) : DB × WebhookResponse :=
  match verify req with
  | none => (db, .sigError)
  | some event => (processEvent db event, .received)

/-- Number of order rows carrying a given stripe session id. -/
def countOrders (db : DB) (sid : String) : Nat :=
  (db.orders.filter (fun o => o.stripe_session_id == sid)).length

/-- The invariant the UNIQUE constraint keeps on the orders table: no two
rows share a stripe session id. -/
def ordersUnique (db : DB) : Prop :=
  (db.orders.map (fun o => o.stripe_session_id)).Nodup

instance (db : DB) : Decidable (ordersUnique db) := by
  unfold ordersUnique; infer_instance

/-! ## Order lookup: GET /api/order/:sessionId -/

/-- The synthesized order object of the Stripe fallback branch:
`id: null`, email/amount/status read live from the session. -/
structure OrderView where
  id : Option Nat
  session_id : String
  customer_email : String
  amount : ℚ
  status : String
deriving Repr, DecidableEq

/-- Outcome of GET /api/order/:sessionId: the persisted row, the synthesized
fallback view, or the 500 "Failed to fetch order" when the Stripe retrieve
throws (no such session upstream). -/
inductive OrderLookup
  | persisted (row : OrderRow)
  | synthesized (view : OrderView)
  | failed (msg : String)
deriving Repr, DecidableEq

/-- The order-lookup route.  `retrieve` stands for
`stripe.checkout.sessions.retrieve`; `none` means the call threw. -/
def getOrder (db : DB) (retrieve : String → Option StripeSession)
    (sid : String) : OrderLookup :=
  match db.orders.find? (fun o => o.stripe_session_id == sid) with
  | some row => .persisted row
  | none =>
    match retrieve sid with
    | none => .failed "Failed to fetch order"
    | some s =>
      .synthesized
        { id := none
          session_id := s.id
          customer_email := s.customer_email
          amount := (s.amount_total : ℚ) / 100
          status := s.payment_status }

/-! ## Admin routes -/

/-- POST /api/admin/products — `INSERT INTO products (...) VALUES (..., true)`:
a new row with `active = true` and the next SERIAL id. -/
def adminCreateProduct (db : DB) (name description : String) (price : ℚ)
    (image_url : Option String) (inventory : Option Int) : DB :=
  { db with
    products := db.products ++
      [{ id := db.nextProductId
         name := name
         description := description
         price := price
         image_url := image_url
         inventory := inventory
         active := true }]
    nextProductId := db.nextProductId + 1 }

/-- PUT /api/admin/products/:id — `UPDATE products SET ... WHERE id = $7`:
every field of the matching row is overwritten from the request body. -/
def adminUpdateProduct (db : DB) (pid : Nat) (name description : String)
    (price : ℚ) (image_url : Option String) (inventory : Option Int)
    (active : Bool) : DB :=
  { db with
    products := db.products.map (fun p =>
      if p.id == pid then
        { id := p.id
          name := name
          description := description
          price := price
          image_url := image_url
          inventory := inventory
          active := active }
      else p) }

/-! ## Reachable system states

The provider is modelled explicitly: a checkout that reaches
`stripe.checkout.sessions.create` registers a session whose metadata is the
serialized cart; a webhook whose signature verifies can only carry an event
about a session the provider actually holds (Stripe signs only its own
events).  Customer contact details are chosen freely at payment time. -/

/-- The store plus the provider-held sessions. -/
structure World where
  db : DB
  sessions : List StripeSession
deriving Repr, DecidableEq

/-- Fresh deployment: empty tables (SERIAL counters start at 1), no sessions. -/
def initWorld : World :=
  { db := { products := [], orders := [], nextProductId := 1, nextOrderId := 1 }
    sessions := [] }

/-- `amount_total` as Stripe computes it from the submitted line items. -/
def sessionAmount (lineItems : List LineItem) : ℤ :=
  (lineItems.map (fun li => li.unit_amount * li.quantity)).sum

/-- The session the provider registers for a successful checkout. -/
def mkStripeSession (w : World) (lineItems : List LineItem)
    (items : List CartItem) (email cname shipping : String) : StripeSession :=
  { id := "cs_" ++ toString (w.sessions.length + 1)
    customer_email := email
    customer_name := cname
    amount_total := sessionAmount lineItems
    payment_status := "paid"
    shipping_details := shipping
    metadata_items := some items }

/-- One externally observable transition of the system. -/
inductive Step : World → World → Prop
  | adminCreate (w : World) (name description : String) (price : ℚ)
      (image_url : Option String) (inventory : Option Int) :
      Step w { w with
        db := adminCreateProduct w.db name description price image_url inventory }
  | adminUpdate (w : World) (pid : Nat) (name description : String) (price : ℚ)
      (image_url : Option String) (inventory : Option Int) (active : Bool) :
      Step w { w with
        db := adminUpdateProduct w.db pid name description price image_url
          inventory active }
  | checkout (w : World) (items : List CartItem) (lineItems : List LineItem)
      (email cname shipping : String)
      (h : createSession w.db items = .sessionCreated lineItems items) :
      Step w { w with
        sessions := w.sessions ++
          [mkStripeSession w lineItems items email cname shipping] }
  | webhook (w : World) (s : StripeSession) (ty : String)
      (hs : s ∈ w.sessions) :
      Step w { w with db := processEvent w.db { type := ty, session := s } }

/-- States reachable from a fresh deployment. -/
def Reachable (w : World) : Prop :=
  Relation.ReflTransGen Step initWorld w

/-! ## Sample values used by witnesses -/

/-- An empty freshly created database. -/
def emptyDB : DB :=
  { products := [], orders := [], nextProductId := 1, nextOrderId := 1 }

/-- A sample catalog row. -/
def pBlob : Product :=
  { id := 1, name := "Blob", description := "toy", price := 10,
    image_url := none, inventory := some 5, active := true }

/-- A database holding just `pBlob`. -/
def dbBlob : DB :=
  { products := [pBlob], orders := [], nextProductId := 2, nextOrderId := 1 }

/-- A sample provider session with no parseable metadata. -/
def sampleSession : StripeSession :=
  { id := "cs_w", customer_email := "a@b", customer_name := "n",
    amount_total := 3000, payment_status := "paid", shipping_details := "s",
    metadata_items := none }

/-- A sample webhook request. -/
def sampleReq : WebhookReq := { body := "payload", sig := "t=1,v1=sig" }

/-! ## Claims -/

/-- Claim C4: for every webhook request whose signature does not verify
(`constructEvent` throws), the handler answers with the 400 Webhook Error
response and the store — order rows and product inventories alike — is
completely unchanged. -/
theorem claim_C4_bad_signature_no_state_change
    (verify : WebhookReq → Option WebhookEvent) (db : DB) (req : WebhookReq)
    (hv : verify req = none) :
    handleWebhook verify db req = (db, .sigError) := by
  simp [handleWebhook, hv]

/-- Witness for C4 at a concrete request and store. -/
theorem claim_C4_witness :
    (fun (_ : WebhookReq) => (none : Option WebhookEvent)) sampleReq = none ∧
    handleWebhook (fun _ => none) dbBlob sampleReq = (dbBlob, .sigError) :=
  ⟨rfl, claim_C4_bad_signature_no_state_change (fun _ => none) dbBlob sampleReq rfl⟩

/-- Claim C5: once the signature verifies, the handler always answers the
success acknowledgement `received: true` — the processing `try` swallows every
insertion or inventory failure — and an event of any type other than
checkout.session.completed leaves the whole store untouched. -/
theorem claim_C5_verified_always_acknowledged
    (verify : WebhookReq → Option WebhookEvent) (db : DB) (req : WebhookReq)
    (e : WebhookEvent) (hv : verify req = some e) :
    (handleWebhook verify db req).2 = .received ∧
    (e.type ≠ "checkout.session.completed" →
      (handleWebhook verify db req).1 = db) := by
  refine ⟨by simp [handleWebhook, hv], fun ht => ?_⟩
  simp only [handleWebhook, hv, processEvent]
  rw [if_neg (by simpa using ht)]

/-- An event of a type the handler does not process. -/
def otherEvent : WebhookEvent := { type := "invoice.paid", session := sampleSession }

/-- Witness for C5 at a concrete unrecognized event type. -/
theorem claim_C5_witness :
    (fun (_ : WebhookReq) => some otherEvent) sampleReq = some otherEvent ∧
    ((handleWebhook (fun _ => some otherEvent) dbBlob sampleReq).2 = .received ∧
      (otherEvent.type ≠ "checkout.session.completed" →
        (handleWebhook (fun _ => some otherEvent) dbBlob sampleReq).1 = dbBlob)) :=
  ⟨rfl, claim_C5_verified_always_acknowledged _ dbBlob sampleReq _ rfl⟩

/-- Claim C8: when no order row holds the requested session id but the
provider still knows the session, the lookup answers the synthesized
non-persisted view — `id` is null and email, amount and status are read live
from the provider session — instead of failing. -/
theorem claim_C8_getOrder_stripe_fallback (db : DB)
    (retrieve : String → Option StripeSession) (sid : String)
    (s : StripeSession)
    (hrow : db.orders.find? (fun o => o.stripe_session_id == sid) = none)
    (hs : retrieve sid = some s) :
    getOrder db retrieve sid =
      .synthesized
        { id := none, session_id := s.id, customer_email := s.customer_email,
          amount := (s.amount_total : ℚ) / 100, status := s.payment_status } := by
  simp [getOrder, hrow, hs]

/-- Witness for C8 on the empty order store. -/
theorem claim_C8_witness :
    (emptyDB.orders.find? (fun o => o.stripe_session_id == "cs_w") = none) ∧
    (fun (_ : String) => some sampleSession) "cs_w" = some sampleSession ∧
    getOrder emptyDB (fun _ => some sampleSession) "cs_w" =
      .synthesized
        { id := none, session_id := sampleSession.id,
          customer_email := sampleSession.customer_email,
          amount := ((sampleSession.amount_total : ℚ) / 100),
          status := sampleSession.payment_status } :=
  ⟨rfl, rfl,
    claim_C8_getOrder_stripe_fallback emptyDB (fun _ => some sampleSession)
      "cs_w" sampleSession rfl rfl⟩

/-- Claim C10: the single-product route finds a row exactly when a product
with the requested id exists and is active; a missing id and an existing but
deactivated product alike fall into the 404 branch. -/
theorem claim_C10_single_product_active_only (db : DB) (pid : Nat) :
    (getSingleProduct db pid).isSome = true ↔
      ∃ p ∈ db.products, p.id = pid ∧ p.active = true := by
  simp [getSingleProduct, List.find?_isSome, Bool.and_eq_true, beq_iff_eq]

/-- A cart line asking for two units of product 1. -/
def cartLine : CartItem := { productId := 1, quantity := 2 }

/-- Claim C7: with the product found and active, the cart line is rejected
exactly when the inventory is non-null and strictly below the requested
quantity; a null inventory passes the stock check for every quantity. -/
theorem claim_C7_stock_check_iff (products : List Product) (item : CartItem)
    (p : Product) (hf : findProduct products item.productId = some p)
    (ha : p.active = true) :
    ((∃ msg, buildLineItem products item = .error msg) ↔
      ∃ inv, p.inventory = some inv ∧ inv < item.quantity) ∧
    (p.inventory = none → buildLineItem products item = .ok (mkLineItem p item)) := by
  unfold buildLineItem
  rw [hf]
  simp only [ha, Bool.not_true, Bool.false_eq_true, if_false]
  cases hinv : p.inventory with
  | none => simp
  | some inv =>
    by_cases hlt : inv < item.quantity
    · simp [hlt]
    · simp [hlt]

/-- Witness for C7 on the sample catalog. -/
theorem claim_C7_witness :
    findProduct dbBlob.products cartLine.productId = some pBlob ∧
    pBlob.active = true ∧
    (((∃ msg, buildLineItem dbBlob.products cartLine = .error msg) ↔
        ∃ inv, pBlob.inventory = some inv ∧ inv < cartLine.quantity) ∧
      (pBlob.inventory = none →
        buildLineItem dbBlob.products cartLine = .ok (mkLineItem pBlob cartLine))) :=
  ⟨rfl, rfl, claim_C7_stock_check_iff dbBlob.products cartLine pBlob rfl rfl⟩

/-- An invalid cart line rejects the line-item construction. -/
theorem buildLineItem_error_of_invalid (products : List Product)
    (item : CartItem) (h : lineInvalid products item = true) :
    ∃ msg, buildLineItem products item = .error msg := by
  unfold lineInvalid at h
  unfold buildLineItem
  cases hf : findProduct products item.productId with
  | none => exact ⟨_, rfl⟩
  | some p =>
    rw [hf] at h
    by_cases ha : p.active
    · simp only [ha, Bool.not_true, Bool.false_or] at h
      simp only [ha, Bool.not_true, Bool.false_eq_true, if_false]
      cases hinv : p.inventory with
      | none => rw [hinv] at h; simp at h
      | some inv =>
        rw [hinv] at h
        simp only [decide_eq_true_eq] at h
        simp [h]
    · simp [ha]

/-- If some list element fails, `mapM` over `Except` fails. -/
theorem mapM_error_of_mem {α β : Type} (f : α → Except String β)
    (l : List α) (x : α) (hx : x ∈ l) (h : ∃ msg, f x = .error msg) :
    ∃ msg, l.mapM f = .error msg := by
  rw [← List.mapM'_eq_mapM]
  induction l with
  | nil => cases hx
  | cons a t ih =>
    show ∃ msg, (do
      let b ← f a
      let bs ← List.mapM' f t
      pure (b :: bs)) = Except.error msg
    cases hx with
    | head =>
      obtain ⟨m, hm⟩ := h
      rw [hm]
      exact ⟨m, rfl⟩
    | tail _ hx =>
      cases hfa : f a with
      | error m => exact ⟨m, rfl⟩
      | ok b =>
        obtain ⟨m, hm⟩ := ih hx
        rw [hm]
        exact ⟨m, rfl⟩

/-- Claim C2, counterexample to the stated status code: a cart referencing a
product id with no match is answered with HTTP 500, not the 400 the claim
demands — the thrown "not found" error lands in the route's catch-all. -/
theorem claim_C2_counterexample :
    lineInvalid dbBlob.products { productId := 2, quantity := 1 } = true ∧
    createSession dbBlob [{ productId := 2, quantity := 1 }] =
      .caughtError "Product 2 not found" ∧
    createSessionStatus (createSession dbBlob [{ productId := 2, quantity := 1 }]) ≠ 400 := by
  refine ⟨by decide, by decide, by decide⟩

/-- Claim C2 as amended: a cart holding an invalid line (unknown product,
inactive product, or insufficient non-null inventory) makes createSession
fail before the provider call — no payment session is created — but the
response is the catch-all HTTP 500, not 400. -/
theorem claim_C2_invalid_line_fails_without_session (db : DB)
    (items : List CartItem) (x : CartItem) (hx : x ∈ items)
    (hbad : lineInvalid db.products x = true) :
    (∃ msg, createSession db items = .caughtError msg) ∧
    createSessionStatus (createSession db items) = 500 ∧
    providerSessionCreated (createSession db items) = false := by
  obtain ⟨msg, hmsg⟩ :=
    mapM_error_of_mem (buildLineItem db.products) items x hx
      (buildLineItem_error_of_invalid db.products x hbad)
  have hne : items.isEmpty = false := by
    cases items with
    | nil => cases hx
    | cons a t => rfl
  unfold createSession
  rw [hne]
  simp only [Bool.false_eq_true, if_false, hmsg]
  exact ⟨⟨msg, rfl⟩, rfl, rfl⟩

/-- Witness for the amended C2 at a concrete cart with an unknown product. -/
theorem claim_C2_witness :
    ({ productId := 2, quantity := 1 } : CartItem) ∈
      [({ productId := 2, quantity := 1 } : CartItem)] ∧
    lineInvalid dbBlob.products { productId := 2, quantity := 1 } = true ∧
    ((∃ msg, createSession dbBlob [{ productId := 2, quantity := 1 }] = .caughtError msg) ∧
      createSessionStatus (createSession dbBlob [{ productId := 2, quantity := 1 }]) = 500 ∧
      providerSessionCreated (createSession dbBlob [{ productId := 2, quantity := 1 }]) = false) :=
  ⟨List.mem_singleton.mpr rfl, by decide,
    claim_C2_invalid_line_fails_without_session dbBlob _ _
      (List.mem_singleton.mpr rfl) (by decide)⟩

/-- The route reads only `productId` and `quantity` from a cart line. -/
theorem buildLineItem_congr_key (products : List Product) (i j : CartItem)
    (hid : i.productId = j.productId) (hq : i.quantity = j.quantity) :
    buildLineItem products i = buildLineItem products j := by
  unfold buildLineItem mkLineItem
  rw [hid, hq]

/-- The spec's worked example: a 29.99-priced product bought twice. -/
def smallBlob : Product :=
  { id := 1, name := "Small Blob", description := "compact", price := 29.99,
    image_url := none, inventory := some 50, active := true }

/-- Claim C6: line items are computed from the server-side catalog record
alone — two carts equal on productId and quantity yield the same line items,
whatever client-claimed prices or names they carry — and a 29.99 product with
quantity 2 yields unit_amount 2999 (cents) and quantity 2. -/
theorem claim_C6_line_items_from_catalog (db : DB)
    (items items2 : List CartItem)
    (h : items.map (fun i => (i.productId, i.quantity)) =
      items2.map (fun i => (i.productId, i.quantity))) :
    items.mapM (buildLineItem db.products) =
      items2.mapM (buildLineItem db.products) ∧
    buildLineItem [smallBlob] { productId := 1, quantity := 2 } =
      .ok { name := "Small Blob", description := "compact", images := [],
            unit_amount := 2999, quantity := 2 } := by
  constructor
  · rw [← List.mapM'_eq_mapM, ← List.mapM'_eq_mapM]
    induction items generalizing items2 with
    | nil =>
      cases items2 with
      | nil => rfl
      | cons b t2 => simp at h
    | cons a t ih =>
      cases items2 with
      | nil => simp at h
      | cons b t2 =>
        simp only [List.map_cons, List.cons.injEq, Prod.mk.injEq] at h
        obtain ⟨⟨hid, hq⟩, ht⟩ := h
        show (do
          let li ← buildLineItem db.products a
          let lis ← List.mapM' (buildLineItem db.products) t
          pure (li :: lis)) = (do
          let li ← buildLineItem db.products b
          let lis ← List.mapM' (buildLineItem db.products) t2
          pure (li :: lis))
        rw [buildLineItem_congr_key db.products a b hid hq, ih t2 ht]
  · show Except.ok (mkLineItem smallBlob { productId := 1, quantity := 2 }) = _
    unfold mkLineItem smallBlob
    norm_num [round_eq]

/-- Witness for C6: the same cart with different client-claimed prices. -/
theorem claim_C6_witness :
    ([{ productId := 1, quantity := 2, clientPrice := some 1 }] :
        List CartItem).map (fun i => (i.productId, i.quantity)) =
      ([{ productId := 1, quantity := 2, clientPrice := some 500,
          clientName := some "gold blob" }] :
        List CartItem).map (fun i => (i.productId, i.quantity)) ∧
    (([{ productId := 1, quantity := 2, clientPrice := some 1 }] :
        List CartItem).mapM (buildLineItem dbBlob.products) =
      ([{ productId := 1, quantity := 2, clientPrice := some 500,
          clientName := some "gold blob" }] :
        List CartItem).mapM (buildLineItem dbBlob.products) ∧
      buildLineItem [smallBlob] { productId := 1, quantity := 2 } =
        .ok { name := "Small Blob", description := "compact", images := [],
              unit_amount := 2999, quantity := 2 }) :=
  ⟨rfl, claim_C6_line_items_from_catalog dbBlob _ _ rfl⟩

/-! ## Webhook idempotence lemmas -/

/-- The inventory loop never touches the orders table. -/
theorem applyDecrements_orders (db : DB) (items : List CartItem) :
    (applyDecrements db items).orders = db.orders := rfl

/-- A duplicate session id makes the insert throw. -/
theorem insertOrder_dup (db : DB) (s : StripeSession) (items : List CartItem)
    (h : hasOrderForSession db s.id = true) :
    insertOrder db s items =
      .error "duplicate key value violates unique constraint" := by
  simp [insertOrder, h]

/-- A fresh session id makes the insert succeed with the appended row. -/
theorem insertOrder_new (db : DB) (s : StripeSession) (items : List CartItem)
    (h : hasOrderForSession db s.id = false) :
    insertOrder db s items =
      .ok { db with orders := db.orders ++ [insertedRow db s items]
                    nextOrderId := db.nextOrderId + 1 } := by
  simp [insertOrder, h]

/-- After the insert, the session id is present in the orders table. -/
theorem hasOrder_after_insert (db : DB) (s : StripeSession)
    (items : List CartItem) (rest : List CartItem) :
    hasOrderForSession
      (applyDecrements
        { db with orders := db.orders ++ [insertedRow db s items]
                  nextOrderId := db.nextOrderId + 1 } rest) s.id = true := by
  simp [hasOrderForSession, applyDecrements, insertedRow]

/-- A duplicate completed event leaves the store untouched: the insert throws
before the inventory loop. -/
theorem processEvent_dup (db : DB) (e : WebhookEvent)
    (items : List CartItem) (hm : e.session.metadata_items = some items)
    (hdup : hasOrderForSession db e.session.id = true) :
    processEvent db e = db := by
  unfold processEvent
  by_cases hty : (e.type == "checkout.session.completed") = true
  · rw [if_pos hty]
    simp only [hm, insertOrder_dup db e.session items hdup]
  · rw [if_neg hty]

/-- A fresh completed event appends the row and runs the inventory loop. -/
theorem processEvent_new (db : DB) (e : WebhookEvent)
    (items : List CartItem) (hty : e.type = "checkout.session.completed")
    (hm : e.session.metadata_items = some items)
    (hdup : hasOrderForSession db e.session.id = false) :
    processEvent db e =
      applyDecrements
        { db with orders := db.orders ++ [insertedRow db e.session items]
                  nextOrderId := db.nextOrderId + 1 } items := by
  unfold processEvent
  rw [if_pos (by simpa using hty)]
  simp only [hm, insertOrder_new db e.session items hdup]

/-- Processing the same event a second time changes nothing. -/
theorem processEvent_idem (db : DB) (e : WebhookEvent) :
    processEvent (processEvent db e) e = processEvent db e := by
  by_cases hty : (e.type == "checkout.session.completed") = true
  · cases hm : e.session.metadata_items with
    | none =>
      conv_lhs => rw [processEvent, if_pos hty, hm]
    | some items =>
      cases hdup : hasOrderForSession db e.session.id with
      | true =>
        have hd := processEvent_dup db e items hm hdup
        rw [hd, hd]
      | false =>
        rw [processEvent_new db e items (by simpa using hty) hm hdup]
        exact processEvent_dup _ e items hm
          (hasOrder_after_insert db e.session items items)
  · unfold processEvent
    rw [if_neg hty, if_neg hty]

/-- Delivering the identical webhook request twice is the same as once. -/
theorem handleWebhook_idem (verify : WebhookReq → Option WebhookEvent)
    (db : DB) (req : WebhookReq) :
    (handleWebhook verify (handleWebhook verify db req).1 req).1 =
      (handleWebhook verify db req).1 := by
  unfold handleWebhook
  cases hv : verify req with
  | none => rfl
  | some e => exact processEvent_idem db e

/-- `countOrders` of an absent session id is zero. -/
theorem countOrders_eq_zero (db : DB) (sid : String)
    (h : hasOrderForSession db sid = false) : countOrders db sid = 0 := by
  unfold hasOrderForSession at h
  unfold countOrders
  rw [List.length_eq_zero, List.filter_eq_nil_iff]
  intro o ho
  rw [List.any_eq_false] at h
  exact fun hb => h o ho hb

/-- `countOrders` of a present session id is positive. -/
theorem countOrders_pos (db : DB) (sid : String)
    (h : hasOrderForSession db sid = true) : 1 ≤ countOrders db sid := by
  unfold hasOrderForSession at h
  rw [List.any_eq_true] at h
  obtain ⟨o, ho, hb⟩ := h
  have : o ∈ db.orders.filter (fun o => o.stripe_session_id == sid) :=
    List.mem_filter.mpr ⟨ho, hb⟩
  have := List.length_pos.mpr (List.ne_nil_of_mem this)
  simpa [countOrders] using this

/-- Nodup session ids put a given id in at most one row of a list. -/
theorem filter_sid_length_le_one (l : List OrderRow) (sid : String)
    (h : (l.map (fun o => o.stripe_session_id)).Nodup) :
    (l.filter (fun o => o.stripe_session_id == sid)).length ≤ 1 := by
  induction l with
  | nil => simp
  | cons o t ih =>
    rw [List.map_cons, List.nodup_cons] at h
    obtain ⟨hno, ht⟩ := h
    by_cases hb : (o.stripe_session_id == sid) = true
    · have hnil : t.filter (fun o => o.stripe_session_id == sid) = [] := by
        rw [List.filter_eq_nil_iff]
        intro x hx hxb
        apply hno
        rw [List.mem_map]
        refine ⟨x, hx, ?_⟩
        rw [beq_iff_eq] at hb hxb
        rw [hxb, hb]
      simp [List.filter_cons, hb, hnil]
    · simp only [List.filter_cons, hb, if_false, Bool.false_eq_true]
      exact ih ht

/-- Under the UNIQUE constraint a session id occurs in at most one row. -/
theorem countOrders_le_one (db : DB) (sid : String) (h : ordersUnique db) :
    countOrders db sid ≤ 1 :=
  filter_sid_length_le_one db.orders sid h

/-- `processEvent` keeps the UNIQUE invariant on session ids. -/
theorem ordersUnique_processEvent (db : DB) (e : WebhookEvent)
    (h : ordersUnique db) : ordersUnique (processEvent db e) := by
  by_cases hty : (e.type == "checkout.session.completed") = true
  · cases hm : e.session.metadata_items with
    | none =>
      unfold processEvent
      rw [if_pos hty]
      simpa [hm] using h
    | some items =>
      cases hdup : hasOrderForSession db e.session.id with
      | true => rw [processEvent_dup db e items hm hdup]; exact h
      | false =>
        rw [processEvent_new db e items (by simpa using hty) hm hdup]
        unfold ordersUnique at h ⊢
        rw [applyDecrements_orders]
        show (List.map _ (db.orders ++ [insertedRow db e.session items])).Nodup
        rw [List.map_append, List.nodup_append]
        refine ⟨h, by simp, ?_⟩
        intro sid hsid hsid1
        simp only [List.map_cons, List.map_nil, List.mem_singleton] at hsid1

        unfold hasOrderForSession at hdup
        rw [List.any_eq_false] at hdup
        rw [List.mem_map] at hsid
        obtain ⟨o, ho, hos⟩ := hsid
        exact hdup o ho (by rw [beq_iff_eq, hos, hsid1]; rfl)
  · unfold processEvent
    rw [if_neg hty]
    exact h

/-- Every step of the system keeps the UNIQUE invariant. -/
theorem step_ordersUnique {w w2 : World} (hs : Step w w2)
    (h : ordersUnique w.db) : ordersUnique w2.db := by
  cases hs with
  | adminCreate name description price image_url inventory => exact h
  | adminUpdate pid name description price image_url inventory active => exact h
  | checkout items lineItems email cname shipping hck => exact h
  | webhook s ty hsess => exact ordersUnique_processEvent w.db _ h

/-- Every reachable store satisfies the UNIQUE invariant on session ids;
this is what "reachable store state" amounts to for claims C1 and C9. -/
theorem reachable_ordersUnique {w : World} (h : Reachable w) :
    ordersUnique w.db := by
  induction h with
  | refl => simp [initWorld, ordersUnique]
  | tail _ hs ih => exact step_ordersUnique hs ih

/-- Claim C1: redelivering a verified checkout.session.completed webhook —
over any store satisfying the UNIQUE-session-id invariant that every
reachable store has — leaves exactly one order row with that session id, and
both deliveries are acknowledged rather than crashing. -/
theorem claim_C1_redelivered_webhook_single_order
    (verify : WebhookReq → Option WebhookEvent) (db : DB) (req : WebhookReq)
    (e : WebhookEvent) (items : List CartItem)
    (hu : ordersUnique db) (hv : verify req = some e)
    (ht : e.type = "checkout.session.completed")
    (hm : e.session.metadata_items = some items) :
    countOrders
        (handleWebhook verify (handleWebhook verify db req).1 req).1
        e.session.id = 1 ∧
    (handleWebhook verify db req).2 = .received ∧
    (handleWebhook verify (handleWebhook verify db req).1 req).2 = .received := by
  refine ⟨?_, by simp [handleWebhook, hv], by simp [handleWebhook, hv]⟩
  rw [handleWebhook_idem]
  have h1 : (handleWebhook verify db req).1 = processEvent db e := by
    simp [handleWebhook, hv]
  rw [h1]
  cases hdup : hasOrderForSession db e.session.id with
  | true =>
    rw [processEvent_dup db e items hm hdup]
    exact le_antisymm (countOrders_le_one db _ hu) (countOrders_pos db _ hdup)
  | false =>
    rw [processEvent_new db e items ht hm hdup]
    have hstep :
        countOrders
          (applyDecrements
            { db with orders := db.orders ++ [insertedRow db e.session items]
                      nextOrderId := db.nextOrderId + 1 } items)
          e.session.id =
        (db.orders.filter
          (fun o => o.stripe_session_id == e.session.id)).length + 1 := by
      unfold countOrders
      rw [applyDecrements_orders]
      simp [List.filter_append, insertedRow]
    rw [hstep]
    have hz := countOrders_eq_zero db e.session.id hdup
    unfold countOrders at hz
    rw [hz]

/-- A completed provider session whose metadata deserializes to one line. -/
def paidSession : StripeSession :=
  { id := "cs_1", customer_email := "a@b", customer_name := "n",
    amount_total := 2000, payment_status := "paid", shipping_details := "s",
    metadata_items := some [cartLine] }

/-- The checkout.session.completed event for `paidSession`. -/
def completedEvent : WebhookEvent :=
  { type := "checkout.session.completed", session := paidSession }

/-- Witness for C1: the same completed event delivered twice to a fresh store. -/
theorem claim_C1_witness :
    ordersUnique emptyDB ∧
    (fun (_ : WebhookReq) => some completedEvent) sampleReq = some completedEvent ∧
    completedEvent.type = "checkout.session.completed" ∧
    completedEvent.session.metadata_items = some [cartLine] ∧
    (countOrders
        (handleWebhook (fun _ => some completedEvent)
          (handleWebhook (fun _ => some completedEvent) emptyDB sampleReq).1
          sampleReq).1
        completedEvent.session.id = 1 ∧
      (handleWebhook (fun _ => some completedEvent) emptyDB sampleReq).2 = .received ∧
      (handleWebhook (fun _ => some completedEvent)
          (handleWebhook (fun _ => some completedEvent) emptyDB sampleReq).1
          sampleReq).2 = .received) :=
  ⟨by decide, rfl, rfl, rfl,
    claim_C1_redelivered_webhook_single_order (fun _ => some completedEvent)
      emptyDB sampleReq completedEvent [cartLine] (by decide) rfl rfl rfl⟩

/-- Claim C9: when the order insert throws (duplicate session id), the whole
store — inventories included — is unchanged by that delivery, and replaying
any webhook request never decrements inventory a second time. -/
theorem claim_C9_failed_insert_skips_decrement
    (verify : WebhookReq → Option WebhookEvent) (db : DB) (req : WebhookReq)
    (e : WebhookEvent) (items : List CartItem)
    (hv : verify req = some e)
    (ht : e.type = "checkout.session.completed")
    (hm : e.session.metadata_items = some items)
    (hdup : hasOrderForSession db e.session.id = true) :
    (handleWebhook verify db req).1 = db ∧
    ∀ db0 : DB,
      (handleWebhook verify (handleWebhook verify db0 req).1 req).1.products =
        (handleWebhook verify db0 req).1.products := by
  constructor
  · have h1 : (handleWebhook verify db req).1 = processEvent db e := by
      simp [handleWebhook, hv]
    rw [h1]
    exact processEvent_dup db e items hm hdup
  · intro db0
    rw [handleWebhook_idem]

/-- The order row a previous delivery of `paidSession` persisted. -/
def orderRow1 : OrderRow :=
  { id := 1, stripe_session_id := "cs_1", customer_email := "a@b",
    customer_name := "n", amount := 20, status := "paid",
    shipping_address := "s", items := [cartLine] }

/-- A store already holding the order for session cs_1. -/
def dbWithOrder : DB :=
  { products := [pBlob], orders := [orderRow1], nextProductId := 2,
    nextOrderId := 2 }

/-- Witness for C9: redelivery against a store already holding the order. -/
theorem claim_C9_witness :
    (fun (_ : WebhookReq) => some completedEvent) sampleReq = some completedEvent ∧
    completedEvent.type = "checkout.session.completed" ∧
    completedEvent.session.metadata_items = some [cartLine] ∧
    hasOrderForSession dbWithOrder completedEvent.session.id = true ∧
    ((handleWebhook (fun _ => some completedEvent) dbWithOrder sampleReq).1 =
        dbWithOrder ∧
      ∀ db0 : DB,
        (handleWebhook (fun _ => some completedEvent)
            (handleWebhook (fun _ => some completedEvent) db0 sampleReq).1
            sampleReq).1.products =
          (handleWebhook (fun _ => some completedEvent) db0 sampleReq).1.products) :=
  ⟨rfl, rfl, rfl, by decide,
    claim_C9_failed_insert_skips_decrement (fun _ => some completedEvent)
      dbWithOrder sampleReq completedEvent [cartLine] rfl rfl rfl (by decide)⟩

/-! ## The inventory decrement, in closed form -/

/-- Total quantity the cart snapshot orders for a given product id. -/
def itemsQty (items : List CartItem) (pid : Nat) : ℤ :=
  (items.map (fun i => if i.productId == pid then i.quantity else 0)).sum

/-- What the inventory loop does to one catalog row. -/
def updInv (items : List CartItem) (p : Product) : Product :=
  { p with inventory := p.inventory.map (fun n => n - itemsQty items p.id) }

/-- The inventory loop subtracts, per product, the total ordered quantity —
with no lower bound. -/
theorem foldl_decrementInventory (items : List CartItem) (ps : List Product) :
    items.foldl decrementInventory ps = ps.map (updInv items) := by
  induction items generalizing ps with
  | nil =>
    show ps = ps.map (updInv [])
    have h : ∀ p : Product, p = updInv [] p := by
      intro p
      obtain ⟨pid, pname, pdesc, pprice, pimg, pinv, pact⟩ := p
      cases pinv <;> simp [updInv, itemsQty]
    rw [show updInv [] = fun p => p from funext fun p => (h p).symm, List.map_id']
  | cons i t ih =>
    rw [List.foldl_cons, ih]
    unfold decrementInventory
    rw [List.map_map]
    refine congrArg (fun f => List.map f ps) (funext fun p => ?_)
    obtain ⟨pid, pname, pdesc, pprice, pimg, pinv, pact⟩ := p
    show updInv t (if (pid == i.productId) = true then _ else _) = _
    by_cases hid : (pid == i.productId) = true
    · rw [if_pos hid]
      rw [beq_iff_eq] at hid
      cases pinv with
      | none => simp [updInv, itemsQty, hid]
      | some n => simp [updInv, itemsQty, hid, sub_sub]
    · rw [if_neg hid]
      have hid2 : (i.productId == pid) = false := by
        rw [beq_eq_false_iff_ne]
        intro hh
        exact hid (by rw [beq_iff_eq]; exact hh.symm)
      have hne : i.productId ≠ pid := by
        rw [← beq_eq_false_iff_ne]
        exact hid2
      cases pinv with
      | none => simp [updInv, itemsQty, hne]
      | some n => simp [updInv, itemsQty, hne]

/-- Claim C3 as amended: webhook fulfillment subtracts, from every product
with non-null inventory, the total quantity ordered for it, with no guard
below zero — the inventory stays non-negative exactly when the fulfilled
quantity does not exceed the prior stock. -/
theorem claim_C3_fulfillment_decrement_unguarded (db : DB)
    (s : StripeSession) (items : List CartItem)
    (hm : s.metadata_items = some items)
    (hdup : hasOrderForSession db s.id = false) :
    (processEvent db
        { type := "checkout.session.completed", session := s }).products =
      db.products.map (updInv items) ∧
    ∀ p ∈ db.products, ∀ n : ℤ, p.inventory = some n →
      ((updInv items p).inventory = some (n - itemsQty items p.id) ∧
        (0 ≤ n - itemsQty items p.id ↔ itemsQty items p.id ≤ n)) := by
  constructor
  · rw [processEvent_new db _ items rfl hm hdup]
    unfold applyDecrements
    show items.foldl decrementInventory db.products = _
    exact foldl_decrementInventory items db.products
  · intro p hp n hn
    exact ⟨by simp [updInv, hn], sub_nonneg⟩

/-- Witness for the amended C3: fulfilling two units of the sample product. -/
theorem claim_C3_witness :
    paidSession.metadata_items = some [cartLine] ∧
    hasOrderForSession dbBlob paidSession.id = false ∧
    ((processEvent dbBlob
        { type := "checkout.session.completed", session := paidSession }).products =
      dbBlob.products.map (updInv [cartLine]) ∧
    ∀ p ∈ dbBlob.products, ∀ n : ℤ, p.inventory = some n →
      ((updInv [cartLine] p).inventory = some (n - itemsQty [cartLine] p.id) ∧
        (0 ≤ n - itemsQty [cartLine] p.id ↔ itemsQty [cartLine] p.id ≤ n))) :=
  ⟨rfl, by decide,
    claim_C3_fulfillment_decrement_unguarded dbBlob paidSession [cartLine]
      rfl (by decide)⟩

/-! ## Counterexample trace for C3

Stock 5, two checkouts of 3 units each: both pass the availability check,
both completed-session webhooks decrement, and inventory lands at -1. -/

/-- A cart ordering three units of product 1. -/
def line3 : CartItem := { productId := 1, quantity := 3 }

/-- World after the admin creates the 5-unit product. -/
def cexW1 : World := { db := dbBlob, sessions := [] }

/-- Session from the first checkout of three units. -/
def cexS1 : StripeSession :=
  mkStripeSession cexW1 [mkLineItem pBlob line3] [line3] "a@b" "n" "s"

/-- World after the first checkout. -/
def cexW2 : World := { db := dbBlob, sessions := [cexS1] }

/-- Session from the second checkout of three units. -/
def cexS2 : StripeSession :=
  mkStripeSession cexW2 [mkLineItem pBlob line3] [line3] "a@b" "n" "s"

/-- World after the second checkout. -/
def cexW3 : World := { db := dbBlob, sessions := [cexS1, cexS2] }

/-- World after the first completed-session webhook (stock 5 becomes 2). -/
def cexW4 : World :=
  { db := processEvent dbBlob
      { type := "checkout.session.completed", session := cexS1 }
    sessions := [cexS1, cexS2] }

/-- World after the second completed-session webhook (stock 2 becomes -1). -/
def cexW5 : World :=
  { db := processEvent cexW4.db
      { type := "checkout.session.completed", session := cexS2 }
    sessions := [cexS1, cexS2] }

/-- Claim C3, counterexample: a reachable store in which a webhook-driven
fulfillment leaves a non-null inventory negative. -/
theorem claim_C3_counterexample :
    Reachable cexW4 ∧
    Step cexW4 cexW5 ∧
    cexW5.db = processEvent cexW4.db
      { type := "checkout.session.completed", session := cexS2 } ∧
    ∃ p ∈ cexW5.db.products, p.inventory = some (-1) := by
  have s1 : Step initWorld cexW1 :=
    Step.adminCreate initWorld "Blob" "toy" 10 none (some 5)
  have s2 : Step cexW1 cexW2 :=
    Step.checkout cexW1 [line3] [mkLineItem pBlob line3] "a@b" "n" "s" rfl
  have s3 : Step cexW2 cexW3 :=
    Step.checkout cexW2 [line3] [mkLineItem pBlob line3] "a@b" "n" "s" rfl
  have s4 : Step cexW3 cexW4 :=
    Step.webhook cexW3 cexS1 "checkout.session.completed"
      (List.mem_cons_self _ _)
  have s5 : Step cexW4 cexW5 :=
    Step.webhook cexW4 cexS2 "checkout.session.completed"
      (List.mem_cons_of_mem _ (List.mem_cons_self _ _))
  refine ⟨?_, s5, rfl, ?_⟩
  · exact Relation.ReflTransGen.tail
      (Relation.ReflTransGen.tail
        (Relation.ReflTransGen.tail
          (Relation.ReflTransGen.tail Relation.ReflTransGen.refl s1) s2) s3) s4
  · refine ⟨_, List.mem_cons_self _ _, ?_⟩
    show (some ((5:ℤ) - 3 - 3) : Option ℤ) = some (-1)
    norm_num

end WaterBlob
